import Mathlib

/-!
# Verification of `motion_camera.py` (class `MotionCamera`)

Shallow embedding of `src/python/motion_camera.py`.  Grayscale images are
lists of rows of pixel values (`Nat`, range 0–255); BGR frames are lists of
rows of `(b, g, r)` triples.  The OpenCV / NumPy primitives the code calls
(`cvtColor BGR2GRAY`, `filter2D` with the 3×3 box kernel, `absdiff`,
`threshold(…, 30, 255, THRESH_BINARY)`, `count_nonzero`, `zeros_like`) are
embedded with their documented pixel-level semantics:

* `cvtColor BGR2GRAY` uses OpenCV's fixed-point coefficients
  `(B*1868 + G*9617 + R*4899 + 8192) >> 14` (the 14-bit fixed-point
  rendering of 0.114/0.587/0.299, coefficients summing to 16384);
* `filter2D(gray, -1, ones(3,3)/9)` averages the 3×3 neighbourhood with
  OpenCV's default `BORDER_REFLECT_101` border and rounds the exact
  rational mean to the nearest integer.  A tie (mean exactly `k + 1/2`)
  is impossible: `2*s = 9*(2k+1)` has an even left side and an odd right
  side, so one rounding rule `(2*s + 9) / 18` captures the result exactly,
  and the float32 kernel's error (≤ 2⁻²⁴ per weight, hence ≤ ~1.4·10⁻⁴ on
  the mean) is far below the 1/18 margin to the nearest tie, so the
  rational model agrees with the float32 computation on all uint8 inputs;
* `threshold(d, 30, 255, THRESH_BINARY)` maps a pixel `v` to `255` when
  `30 < v` and to `0` otherwise.

The device (`cv2.VideoCapture`) is external: a call to `get_motion` takes
the environment's answers as arguments — whether an `open` performed by a
lazy `start_capture` yields an opened handle, and what `cap.read()`
returns (`none` for `ret == False`).  The Python float division
`count * 100 / size` is modelled in `ℚ` (the values involved are exact in
double precision).
-/

/-- A grayscale image: rows of pixel values (uint8 modelled as `Nat`). -/
abbrev GrayImage : Type := List (List Nat)

/-- A BGR frame: rows of `(b, g, r)` channel triples. -/
abbrev BGRImage : Type := List (List (Nat × Nat × Nat))

/-- One pixel of `cv2.cvtColor(frame, COLOR_BGR2GRAY)`: OpenCV's fixed-point
luminance sum `(B*1868 + G*9617 + R*4899 + 8192) >> 14`. -/
def grayPixel (p : Nat × Nat × Nat) : Nat :=
  (p.1 * 1868 + p.2.1 * 9617 + p.2.2 * 4899 + 8192) / 16384

/-- The grayscale conversion `cv2.cvtColor(frame, COLOR_BGR2GRAY)` on a whole
frame. -/
def cvtColorBGR2GRAY (frame : BGRImage) : GrayImage :=
  frame.map (fun row => row.map grayPixel)

/-- Pixel lookup with out-of-range defaulting (only used at in-range
indices produced by `reflect101`). -/
def pixelAt (img : GrayImage) (i j : Nat) : Nat :=
  (img.getD i []).getD j 0

/-- OpenCV's default `BORDER_REFLECT_101` index map for an axis of length
`n` (`-1 ↦ 1`, `n ↦ n - 2`), for overhangs of at most one pixel as produced
by a 3×3 kernel. -/
def reflect101 (n : Nat) (i : Int) : Nat :=
  if i < 0 then (-i).toNat
  else if i < (n : Int) then i.toNat
  else 2 * n - 2 - i.toNat

/-- One output pixel of `cv2.filter2D(gray, -1, ones((3,3))/9)`: the 3×3
neighbourhood sum under `BORDER_REFLECT_101`, divided by 9 and rounded to
the nearest integer (`(2*s + 9) / 18`; ties are impossible, see the file
header). -/
def blurPixel (img : GrayImage) (rows cols : Nat) (i j : Nat) : Nat :=
  let s := (List.range 3).foldl (fun acc di =>
    (List.range 3).foldl (fun acc2 dj =>
      acc2 + pixelAt img (reflect101 rows ((i : Int) + (di : Int) - 1))
                     (reflect101 cols ((j : Int) + (dj : Int) - 1))) acc) 0
  (2 * s + 9) / 18

/-- The box filter `cv2.filter2D(gray, -1, ones((3,3), float32)/9)` with the
default border. The output has the same shape as the input (assumed rectangular,
as NumPy arrays are). -/
def filter2D_box (img : GrayImage) : GrayImage :=
  let rows := img.length
  let cols := (img.headD []).length
  (List.range rows).map (fun i => (List.range cols).map (fun j =>
    blurPixel img rows cols i j))

/-- The primitive `cv2.absdiff(a, b)`: pixel-wise absolute difference. -/
def absdiff (a b : GrayImage) : GrayImage :=
  List.zipWith (fun ra rb => List.zipWith (fun x y => max x y - min x y) ra rb) a b

/-- The binarization `cv2.threshold(d, thresh, maxval, THRESH_BINARY)` (second component of the
returned pair): pixel `v` becomes `255` when `v > 30`, else `0`. -/
def thresholdBinary (thresh maxval : Nat) (d : GrayImage) : GrayImage :=
  d.map (fun row => row.map (fun v => if thresh < v then maxval else 0))

/-- The primitive `np.zeros_like(img)`: an all-zero image of the same shape. -/
def zeros_like (img : GrayImage) : GrayImage :=
  img.map (fun row => row.map (fun _ => 0))

/-- The count `np.count_nonzero(img)`. -/
def count_nonzero (img : GrayImage) : Nat :=
  (img.map (fun row => (row.filter (fun v => v ≠ 0)).length)).sum

/-- The NumPy attribute `img.size`: the total number of pixels. -/
def imgSize (img : GrayImage) : Nat :=
  (img.map List.length).sum

/-- The `cv2.VideoCapture` handle as the sensor sees it: which index it was
opened on, whether `isOpened()` holds, and the width/height requested via
`cap.set`. -/
structure Cap where
  index : Nat
  opened : Bool
  reqWidth : Nat
  reqHeight : Nat
deriving DecidableEq, Repr

/-- The state of a `MotionCamera` instance (`__init__`, lines 5–18): the
configuration, the optional device handle `cap`, and the previous processed
frame `last_frame`.  The `kernel` field is the constant 3×3 box kernel,
folded into `_apply_kernel` below. -/
structure MotionCamera where
  camera_index : Nat
  width : Nat
  height : Nat
  cap : Option Cap
  last_frame : Option GrayImage
deriving DecidableEq

/-- The constructor `MotionCamera.__init__(camera_index, width, height)`. -/
def MotionCamera.init (camera_index width height : Nat) : MotionCamera :=
  { camera_index := camera_index, width := width, height := height,
    cap := none, last_frame := none }

/-- The method `start_capture` (lines 20–24): opens `VideoCapture(camera_index)`
(whether the handle ends up opened is the environment's answer `openOk`)
and requests the configured width and height. -/
def MotionCamera.start_capture (st : MotionCamera) (openOk : Bool) : MotionCamera :=
  { st with cap := some { index := st.camera_index, opened := openOk,
                          reqWidth := st.width, reqHeight := st.height } }

/-- The method `stop_capture` (lines 26–31): releases the handle if held and clears
`last_frame`. -/
def MotionCamera.stop_capture (st : MotionCamera) : MotionCamera :=
  { st with cap := none, last_frame := none }

/-- The helper `_apply_kernel(frame)` (lines 33–43) at its only call site (no kernel
override): grayscale conversion followed by the 3×3 box blur. -/
def MotionCamera._apply_kernel (frame : BGRImage) : GrayImage :=
  filter2D_box (cvtColorBGR2GRAY frame)

/-- The value of one `get_motion()` call: the post-call state and the
returned triple `(frame, motion_frame, motion_amount)`. -/
structure GetMotionResult where
  state : MotionCamera
  frame : Option BGRImage
  motion_frame : Option GrayImage
  motion_amount : ℚ
deriving DecidableEq

/-- The lazy start of `get_motion` (lines 52–53): `if self.cap is None or
not self.cap.isOpened(): self.start_capture()`. -/
def MotionCamera.lazy_start (st : MotionCamera) (openOk : Bool) : MotionCamera :=
  if st.cap.elim true (fun c => !c.opened) then st.start_capture openOk else st

/-- The method `get_motion` (lines 45–71).  `openOk` is the environment's answer to the
lazy `start_capture` (used only if it is performed); `readRes` is what
`self.cap.read()` returns: `none` for `ret == False`, `some frame`
otherwise. -/
def MotionCamera.get_motion (st : MotionCamera) (openOk : Bool)
    (readRes : Option BGRImage) : GetMotionResult :=
  let st1 := st.lazy_start openOk
  match readRes with
  | none => { state := st1, frame := none, motion_frame := none, motion_amount := 0 }
  | some frame =>
    let processed := MotionCamera._apply_kernel frame
    let motion_frame := zeros_like processed
    let motion_amount : ℚ := 0
    match st1.last_frame with
    | none =>
      { state := { st1 with last_frame := some processed },
        frame := some frame, motion_frame := some motion_frame,
        motion_amount := motion_amount }
    | some last =>
      let diff := absdiff processed last
      let motion_frame := thresholdBinary 30 255 diff
      let motion_amount : ℚ :=
        ((count_nonzero motion_frame : ℚ) * 100) / ((imgSize motion_frame : ℚ))
      { state := { st1 with last_frame := some processed },
        frame := some frame, motion_frame := some motion_frame,
        motion_amount := motion_amount }

/-! ## Derived notions and basic lemmas -/

/-- The shape of an image: its list of row lengths. -/
def shape (img : GrayImage) : List Nat :=
  img.map List.length

/-- Every pixel of the image is zero. -/
def isZeroImage (img : GrayImage) : Prop :=
  ∀ row ∈ img, ∀ v ∈ row, v = 0

theorem lazy_start_last_frame (st : MotionCamera) (ok : Bool) :
    (st.lazy_start ok).last_frame = st.last_frame := by
  unfold MotionCamera.lazy_start MotionCamera.start_capture
  split <;> rfl

theorem lazy_start_config (st : MotionCamera) (ok : Bool) :
    (st.lazy_start ok).camera_index = st.camera_index ∧
    (st.lazy_start ok).width = st.width ∧
    (st.lazy_start ok).height = st.height := by
  unfold MotionCamera.lazy_start MotionCamera.start_capture
  split <;> exact ⟨rfl, rfl, rfl⟩

theorem get_motion_none_eq (st : MotionCamera) (ok : Bool) :
    st.get_motion ok none =
      { state := st.lazy_start ok, frame := none, motion_frame := none,
        motion_amount := 0 } := rfl

theorem get_motion_some_of_no_last (st : MotionCamera) (ok : Bool) (f : BGRImage)
    (h : st.last_frame = none) :
    st.get_motion ok (some f) =
      { state := { st.lazy_start ok with
                   last_frame := some (MotionCamera._apply_kernel f) },
        frame := some f,
        motion_frame := some (zeros_like (MotionCamera._apply_kernel f)),
        motion_amount := 0 } := by
  have h1 : (st.lazy_start ok).last_frame = none :=
    (lazy_start_last_frame st ok).trans h
  unfold MotionCamera.get_motion
  simp only [h1]

theorem get_motion_some_of_last (st : MotionCamera) (ok : Bool) (f : BGRImage)
    (prev : GrayImage) (h : st.last_frame = some prev) :
    st.get_motion ok (some f) =
      { state := { st.lazy_start ok with
                   last_frame := some (MotionCamera._apply_kernel f) },
        frame := some f,
        motion_frame := some (thresholdBinary 30 255
          (absdiff (MotionCamera._apply_kernel f) prev)),
        motion_amount :=
          ((count_nonzero (thresholdBinary 30 255
              (absdiff (MotionCamera._apply_kernel f) prev)) : ℚ) * 100) /
            ((imgSize (thresholdBinary 30 255
              (absdiff (MotionCamera._apply_kernel f) prev)) : ℚ)) } := by
  have h1 : (st.lazy_start ok).last_frame = some prev :=
    (lazy_start_last_frame st ok).trans h
  unfold MotionCamera.get_motion
  simp only [h1]

theorem count_nonzero_le_imgSize (img : GrayImage) :
    count_nonzero img ≤ imgSize img := by
  unfold count_nonzero imgSize
  induction img with
  | nil => simp
  | cons row rest ih =>
    simp only [List.map_cons, List.sum_cons]
    exact Nat.add_le_add (List.length_filter_le _ _) ih

theorem absdiff_self (p : GrayImage) : absdiff p p = zeros_like p := by
  unfold absdiff zeros_like
  induction p with
  | nil => rfl
  | cons row rest ih =>
    simp only [List.zipWith_cons_cons, List.map_cons, List.cons.injEq]
    refine ⟨?_, ih⟩
    induction row with
    | nil => rfl
    | cons v vs ihr =>
      simp only [List.zipWith_cons_cons, List.map_cons, List.cons.injEq]
      exact ⟨by omega, ihr⟩

theorem thresholdBinary_zeros_like (t m : Nat) (p : GrayImage) :
    thresholdBinary t m (zeros_like p) = zeros_like p := by
  unfold thresholdBinary zeros_like
  simp [List.map_map, Function.comp]

theorem count_nonzero_zeros_like (p : GrayImage) :
    count_nonzero (zeros_like p) = 0 := by
  unfold count_nonzero zeros_like
  induction p with
  | nil => rfl
  | cons row rest ih =>
    simp only [List.map_cons, List.sum_cons, ih, Nat.add_zero]
    induction row with
    | nil => rfl
    | cons v vs ihr => simp [ihr]

theorem shape_zeros_like (p : GrayImage) : shape (zeros_like p) = shape p := by
  unfold shape zeros_like
  simp [List.map_map, Function.comp]

theorem isZeroImage_zeros_like (p : GrayImage) : isZeroImage (zeros_like p) := by
  unfold isZeroImage zeros_like
  intro row hrow v hv
  rcases List.mem_map.mp hrow with ⟨r0, _, rfl⟩
  rcases List.mem_map.mp hv with ⟨v0, _, rfl⟩
  rfl

theorem amount_formula_bounds (m : GrayImage) :
    0 ≤ ((count_nonzero m : ℚ) * 100) / ((imgSize m : ℚ)) ∧
    ((count_nonzero m : ℚ) * 100) / ((imgSize m : ℚ)) ≤ 100 := by
  have hc := count_nonzero_le_imgSize m
  by_cases hs : imgSize m = 0
  · have hc0 : count_nonzero m = 0 := Nat.le_zero.mp (hs ▸ hc)
    rw [hc0, hs]
    norm_num
  · have hs' : (0 : ℚ) < (imgSize m : ℚ) := by
      exact_mod_cast Nat.pos_of_ne_zero hs
    constructor
    · positivity
    · rw [div_le_iff₀ hs']
      have hcq : (count_nonzero m : ℚ) ≤ (imgSize m : ℚ) := by exact_mod_cast hc
      nlinarith

theorem pixelAt_thresholdBinary (t m : Nat) (d : GrayImage) (i j : Nat)
    (hi : i < d.length) (hj : j < (d.getD i []).length) :
    pixelAt (thresholdBinary t m d) i j = if t < pixelAt d i j then m else 0 := by
  unfold pixelAt thresholdBinary
  have hrow :
      (List.map (fun row => List.map (fun v => if t < v then m else 0) row) d).getD i [] =
        List.map (fun v => if t < v then m else 0) (d.getD i []) := by
    rw [List.getD_eq_getElem _ _ (by simpa using hi), List.getElem_map,
        List.getD_eq_getElem _ _ hi]
  rw [hrow, List.getD_eq_getElem _ _ (by simpa using hj), List.getElem_map,
      List.getD_eq_getElem _ _ hj]

/-! ## Concrete test fixtures (used by witnesses and counterexamples) -/

/-- A gray BGR pixel with all three channels equal. -/
def grayTriple (v : Nat) : Nat × Nat × Nat := (v, v, v)

/-- A constant 2×2 gray frame of value 100. -/
def frameConst2 : BGRImage :=
  [[grayTriple 100, grayTriple 100], [grayTriple 100, grayTriple 100]]

/-- A previous processed frame chosen so that the difference against the
processed `frameConst2` has a pixel exactly 30 at (0,0) and 31 at (0,1). -/
def prevBoundary : GrayImage := [[70, 69], [100, 100]]

/-- A camera state holding `prevBoundary` as its previous processed frame. -/
def stWithPrev : MotionCamera :=
  { camera_index := 0, width := 640, height := 480,
    cap := none, last_frame := some prevBoundary }

/-! ## Claim theorems -/

/-- C1: whenever the frame read succeeds and a previous processed frame
exists, the returned motion amount is exactly
`count_nonzero(mask) * 100 / mask.size` for the returned mask. -/
theorem get_motion_amount_is_ratio (st : MotionCamera) (ok : Bool) (f : BGRImage)
    (prev : GrayImage) (h : st.last_frame = some prev) :
    ∃ mask : GrayImage,
      (st.get_motion ok (some f)).motion_frame = some mask ∧
      (st.get_motion ok (some f)).motion_amount =
        ((count_nonzero mask : ℚ) * 100) / ((imgSize mask : ℚ)) := by
  refine ⟨thresholdBinary 30 255 (absdiff (MotionCamera._apply_kernel f) prev), ?_, ?_⟩ <;>
    rw [get_motion_some_of_last st ok f prev h]

/-- Witness for C1 at a concrete state and frame. -/
theorem get_motion_amount_is_ratio_witness :
    stWithPrev.last_frame = some prevBoundary ∧
    ∃ mask : GrayImage,
      (stWithPrev.get_motion true (some frameConst2)).motion_frame = some mask ∧
      (stWithPrev.get_motion true (some frameConst2)).motion_amount =
        ((count_nonzero mask : ℚ) * 100) / ((imgSize mask : ℚ)) :=
  ⟨rfl, get_motion_amount_is_ratio stWithPrev true frameConst2 prevBoundary rfl⟩

/-- C2: when the device read fails, `get_motion` returns
`(None, None, 0)` (and, being a total function here, raises nothing). -/
theorem get_motion_read_failure_result (st : MotionCamera) (ok : Bool) :
    (st.get_motion ok none).frame = none ∧
    (st.get_motion ok none).motion_frame = none ∧
    (st.get_motion ok none).motion_amount = 0 :=
  ⟨rfl, rfl, rfl⟩

/-- C3: in the binarization step of `get_motion` (the returned mask is the
30/255 binary threshold of the absolute difference of the two processed
frames), a difference pixel of exactly 30 is mapped to 0 (not changed) and
a difference pixel of 31 is mapped to 255 (changed): the cutoff is a
strict greater-than. -/
theorem get_motion_threshold_strict_boundary (st : MotionCamera) (ok : Bool)
    (f : BGRImage) (prev : GrayImage) (h : st.last_frame = some prev) (i j : Nat)
    (hi : i < (absdiff (MotionCamera._apply_kernel f) prev).length)
    (hj : j < ((absdiff (MotionCamera._apply_kernel f) prev).getD i []).length) :
    (st.get_motion ok (some f)).motion_frame =
      some (thresholdBinary 30 255 (absdiff (MotionCamera._apply_kernel f) prev)) ∧
    (pixelAt (absdiff (MotionCamera._apply_kernel f) prev) i j = 30 →
      pixelAt (thresholdBinary 30 255 (absdiff (MotionCamera._apply_kernel f) prev)) i j
        = 0) ∧
    (pixelAt (absdiff (MotionCamera._apply_kernel f) prev) i j = 31 →
      pixelAt (thresholdBinary 30 255 (absdiff (MotionCamera._apply_kernel f) prev)) i j
        = 255) := by
  refine ⟨by rw [get_motion_some_of_last st ok f prev h], ?_, ?_⟩ <;>
    intro hv <;> rw [pixelAt_thresholdBinary 30 255 _ i j hi hj, hv] <;> rfl

/-- Witness for C3: a concrete difference image with a 30 at (0,0) and a
31 at (0,1); the first is not marked, the second is. -/
theorem get_motion_threshold_strict_boundary_witness :
    stWithPrev.last_frame = some prevBoundary ∧
    pixelAt (absdiff (MotionCamera._apply_kernel frameConst2) prevBoundary) 0 0 = 30 ∧
    pixelAt (absdiff (MotionCamera._apply_kernel frameConst2) prevBoundary) 0 1 = 31 ∧
    pixelAt (thresholdBinary 30 255
      (absdiff (MotionCamera._apply_kernel frameConst2) prevBoundary)) 0 0 = 0 ∧
    pixelAt (thresholdBinary 30 255
      (absdiff (MotionCamera._apply_kernel frameConst2) prevBoundary)) 0 1 = 255 :=
  ⟨rfl, by decide, by decide,
    (get_motion_threshold_strict_boundary stWithPrev true frameConst2 prevBoundary rfl
      0 0 (by decide) (by decide)).2.1 (by decide),
    (get_motion_threshold_strict_boundary stWithPrev true frameConst2 prevBoundary rfl
      0 1 (by decide) (by decide)).2.2 (by decide)⟩

/-- C4: when the read succeeds but there is no previous processed frame,
the motion amount is 0 and the returned mask is the all-zero image of the
processed frame's shape, whatever the frame content. -/
theorem get_motion_first_call_zero (st : MotionCamera) (ok : Bool) (f : BGRImage)
    (h : st.last_frame = none) :
    (st.get_motion ok (some f)).motion_amount = 0 ∧
    (st.get_motion ok (some f)).motion_frame =
      some (zeros_like (MotionCamera._apply_kernel f)) ∧
    shape (zeros_like (MotionCamera._apply_kernel f)) =
      shape (MotionCamera._apply_kernel f) ∧
    isZeroImage (zeros_like (MotionCamera._apply_kernel f)) := by
  rw [get_motion_some_of_no_last st ok f h]
  exact ⟨rfl, rfl, shape_zeros_like _, isZeroImage_zeros_like _⟩

/-- Witness for C4 at a fresh camera and a concrete frame. -/
theorem get_motion_first_call_zero_witness :
    (MotionCamera.init 3 640 480).last_frame = none ∧
    ((MotionCamera.init 3 640 480).get_motion true (some frameConst2)).motion_amount = 0 ∧
    ((MotionCamera.init 3 640 480).get_motion true (some frameConst2)).motion_frame =
      some (zeros_like (MotionCamera._apply_kernel frameConst2)) :=
  ⟨rfl,
    (get_motion_first_call_zero (MotionCamera.init 3 640 480) true frameConst2 rfl).1,
    (get_motion_first_call_zero (MotionCamera.init 3 640 480) true frameConst2 rfl).2.1⟩

/-- C6: `stop_capture` is total (safe in every state, handle held or not),
returns the sensor to its initial state, and the next `get_motion` after a
fresh `start_capture` reports motion amount 0 and behaves exactly like the
very first call of a freshly constructed camera. -/
theorem stop_capture_resets (st : MotionCamera) (ok ok2 : Bool) (r : Option BGRImage) :
    st.stop_capture = MotionCamera.init st.camera_index st.width st.height ∧
    ((st.stop_capture.start_capture ok).get_motion ok2 r).motion_amount = 0 ∧
    (st.stop_capture.start_capture ok).get_motion ok2 r =
      ((MotionCamera.init st.camera_index st.width st.height).start_capture ok).get_motion
        ok2 r := by
  refine ⟨rfl, ?_, rfl⟩
  cases r with
  | none => rfl
  | some f => rw [get_motion_some_of_no_last _ ok2 f rfl]

/-- C7: the motion amount returned by any `get_motion` call lies in
`[0, 100]`. -/
theorem motion_amount_in_range (st : MotionCamera) (ok : Bool) (r : Option BGRImage) :
    0 ≤ (st.get_motion ok r).motion_amount ∧
    (st.get_motion ok r).motion_amount ≤ 100 := by
  cases r with
  | none =>
    rw [get_motion_none_eq]
    norm_num
  | some f =>
    cases hl : st.last_frame with
    | none =>
      rw [get_motion_some_of_no_last st ok f hl]
      norm_num
    | some prev =>
      rw [get_motion_some_of_last st ok f prev hl]
      exact amount_formula_bounds _

/-- C8: two consecutive successful calls on pixel-wise identical captured
frames: the second call reports motion amount 0 and an all-zero mask (the
processing transform is deterministic). -/
theorem identical_frames_zero_motion (st : MotionCamera) (ok ok2 : Bool) (f : BGRImage) :
    (((st.get_motion ok (some f)).state).get_motion ok2 (some f)).motion_amount = 0 ∧
    (((st.get_motion ok (some f)).state).get_motion ok2 (some f)).motion_frame =
      some (zeros_like (MotionCamera._apply_kernel f)) ∧
    isZeroImage (zeros_like (MotionCamera._apply_kernel f)) := by
  have h1 : ((st.get_motion ok (some f)).state).last_frame =
      some (MotionCamera._apply_kernel f) := by
    cases hl : st.last_frame with
    | none => rw [get_motion_some_of_no_last st ok f hl]
    | some prev => rw [get_motion_some_of_last st ok f prev hl]
  rw [get_motion_some_of_last _ ok2 f _ h1]
  refine ⟨?_, ?_, isZeroImage_zeros_like _⟩
  · simp [absdiff_self, thresholdBinary_zeros_like, count_nonzero_zeros_like]
  · rw [absdiff_self, thresholdBinary_zeros_like]

/-- C9: if the handle is absent or not open, `get_motion` performs the
start operation before the read: afterwards (whatever the read returned)
the handle is one opened on the configured camera index with the
configured width and height requested. -/
theorem get_motion_lazy_start (st : MotionCamera) (ok : Bool) (r : Option BGRImage)
    (h : st.cap = none ∨ ∃ c, st.cap = some c ∧ c.opened = false) :
    (st.get_motion ok r).state.cap =
      some { index := st.camera_index, opened := ok,
             reqWidth := st.width, reqHeight := st.height } := by
  have hls : (st.lazy_start ok).cap =
      some { index := st.camera_index, opened := ok,
             reqWidth := st.width, reqHeight := st.height } := by
    have hcond : st.cap.elim true (fun c => !c.opened) = true := by
      rcases h with h | ⟨c, hc, hop⟩
      · rw [h]; rfl
      · rw [hc]
        simp [Option.elim, hop]
    unfold MotionCamera.lazy_start
    rw [hcond]
    rfl
  cases r with
  | none =>
    rw [get_motion_none_eq]
    exact hls
  | some f =>
    cases hl : st.last_frame with
    | none =>
      rw [get_motion_some_of_no_last st ok f hl]
      exact hls
    | some prev =>
      rw [get_motion_some_of_last st ok f prev hl]
      exact hls

/-- Witness for C9 at a fresh (never started) camera. -/
theorem get_motion_lazy_start_witness :
    ((MotionCamera.init 2 320 240).cap = none ∨
      ∃ c, (MotionCamera.init 2 320 240).cap = some c ∧ c.opened = false) ∧
    ((MotionCamera.init 2 320 240).get_motion true none).state.cap =
      some { index := 2, opened := true, reqWidth := 320, reqHeight := 240 } :=
  ⟨Or.inl rfl, get_motion_lazy_start (MotionCamera.init 2 320 240) true none (Or.inl rfl)⟩

/-- C10: the previous-frame buffer is updated exactly on successful reads:
a successful call stores the newly processed image (whether or not a
comparison happened), and a failed read leaves the buffer unchanged. -/
theorem last_frame_update (st : MotionCamera) (ok : Bool) :
    (∀ f : BGRImage, ((st.get_motion ok (some f)).state).last_frame =
      some (MotionCamera._apply_kernel f)) ∧
    ((st.get_motion ok none).state).last_frame = st.last_frame := by
  constructor
  · intro f
    cases hl : st.last_frame with
    | none => rw [get_motion_some_of_no_last st ok f hl]
    | some prev => rw [get_motion_some_of_last st ok f prev hl]
  · rw [get_motion_none_eq]
    exact lazy_start_last_frame st ok

/-! ## The end-to-end 4×4 two-pixel scenario (C5) -/

/-- Synthetic 4×4 gray frame: constant value 10. -/
def frameA5 : BGRImage :=
  [[grayTriple 10, grayTriple 10, grayTriple 10, grayTriple 10],
   [grayTriple 10, grayTriple 10, grayTriple 10, grayTriple 10],
   [grayTriple 10, grayTriple 10, grayTriple 10, grayTriple 10],
   [grayTriple 10, grayTriple 10, grayTriple 10, grayTriple 10]]

/-- Synthetic 4×4 gray frame: equal to `frameA5` except the pixels at
(0,0) and (3,3), which are raised by 50 (to 60). -/
def frameB5 : BGRImage :=
  [[grayTriple 60, grayTriple 10, grayTriple 10, grayTriple 10],
   [grayTriple 10, grayTriple 10, grayTriple 10, grayTriple 10],
   [grayTriple 10, grayTriple 10, grayTriple 10, grayTriple 10],
   [grayTriple 10, grayTriple 10, grayTriple 10, grayTriple 60]]

/-- The second `get_motion` call of the C5 scenario: capture `frameA5`,
then capture `frameB5`. -/
def secondCall5 : GetMotionResult :=
  (((MotionCamera.init 0 640 480).get_motion true (some frameA5)).state).get_motion
    true (some frameB5)

theorem secondCall5_amount_zero : secondCall5.motion_amount = 0 := by
  have h1 : (((MotionCamera.init 0 640 480).get_motion true
      (some frameA5)).state).last_frame = some (MotionCamera._apply_kernel frameA5) := by
    rw [get_motion_some_of_no_last _ true frameA5 rfl]
  have h2 := get_motion_some_of_last
    ((MotionCamera.init 0 640 480).get_motion true (some frameA5)).state true frameB5
    (MotionCamera._apply_kernel frameA5) h1
  have hc : count_nonzero (thresholdBinary 30 255
      (absdiff (MotionCamera._apply_kernel frameB5)
        (MotionCamera._apply_kernel frameA5))) = 0 := by
    decide
  unfold secondCall5
  rw [h2]
  simp [hc]

/-- C5, counterexample: the two synthetic 4×4 frames really differ in
exactly 2 pixels by a delta of 50 (their grayscale difference is 50 at
(0,0) and (3,3) and 0 elsewhere), yet the motion amount of the second
call is NOT `12.5 = 2 * 100 / 16`: the 3×3 box blur spreads each isolated
delta of 50 over its neighbourhood (the blurred difference is at most 6
per pixel), so no pixel exceeds the threshold 30. -/
theorem two_pixel_delta50_not_12_5 :
    absdiff (cvtColorBGR2GRAY frameA5) (cvtColorBGR2GRAY frameB5) =
      [[50, 0, 0, 0], [0, 0, 0, 0], [0, 0, 0, 0], [0, 0, 0, 50]] ∧
    absdiff (MotionCamera._apply_kernel frameB5) (MotionCamera._apply_kernel frameA5) =
      [[6, 6, 0, 0], [6, 6, 0, 0], [0, 0, 6, 6], [0, 0, 6, 6]] ∧
    secondCall5.motion_amount ≠ 25 / 2 := by
  refine ⟨by decide, by decide, ?_⟩
  rw [secondCall5_amount_zero]
  norm_num

/-- C5, amended: for the synthetic 4×4 frame pair differing in exactly 2
pixels by a delta of 50 (the changed pixels placed at opposite corners),
the motion amount of the second call is 0 — not 12.5 — and the motion
mask is all zero, because the box blur attenuates each isolated delta
below the threshold. -/
theorem two_pixel_delta50_blur_zero :
    absdiff (cvtColorBGR2GRAY frameA5) (cvtColorBGR2GRAY frameB5) =
      [[50, 0, 0, 0], [0, 0, 0, 0], [0, 0, 0, 0], [0, 0, 0, 50]] ∧
    secondCall5.motion_amount = 0 ∧
    secondCall5.motion_frame =
      some [[0, 0, 0, 0], [0, 0, 0, 0], [0, 0, 0, 0], [0, 0, 0, 0]] := by
  exact ⟨by decide, secondCall5_amount_zero, by decide⟩
